import Mathlib

/-!
Shallow embedding of the IREE mmt4d micro-kernel dispatch engine from
`runtime/src/iree/builtins/ukernel/mmt4d.c`, together with theorems about
its validation, tile-function resolution, loop-nest driver and status
messages.

Modelling conventions:
* C integers are modelled as `Int` (signed) or `Nat` (the `uint32_t` flags
  field).  Pointers are modelled as byte addresses of type `Int`.
* The status enumeration `iree_ukernel_mmt4d_status_t` and the type
  enumeration `iree_ukernel_mmt4d_type_t` are declared in `mmt4d.h`, which
  is not part of the two source files under study; their values are
  modelled from the spec as distinct integer constants, numbered
  consecutively from 0 in declaration order as C enums are.
-/

/-- Modelled from the spec: the `ok` value of the status enumeration
`iree_ukernel_mmt4d_status_t` declared in `mmt4d.h` (not under `src/`).
C enums number consecutively from 0 in declaration order. -/
def iree_ukernel_mmt4d_status_ok : Int := 0

/-- Modelled from the spec: the `bad_flags` status value. -/
def iree_ukernel_mmt4d_status_bad_flags : Int := 1

/-- Modelled from the spec: the `bad_type` status value. -/
def iree_ukernel_mmt4d_status_bad_type : Int := 2

/-- Modelled from the spec: the `unsupported_huge_or_negative_dimension`
status value. -/
def iree_ukernel_mmt4d_status_unsupported_huge_or_negative_dimension : Int := 3

/-- Modelled from the spec: the `unsupported_generic_tile_size` status
value. -/
def iree_ukernel_mmt4d_status_unsupported_generic_tile_size : Int := 4

/-- Modelled from the spec: "`flags`: a bitset; currently only an
ACCUMULATE bit is defined".  The constant is declared in the vmvx module
headers (not under `src/`); the single defined bit is modelled as bit 0. -/
def IREE_VMVX_MATMUL_FLAG_ACCUMULATE : Nat := 1

/-- Modelled from the spec: the `f32f32f32` value of the element-type
enumeration `iree_ukernel_mmt4d_type_t` declared in `mmt4d.h` (not under
`src/`).  Only distinctness of the two supported values matters here. -/
def iree_ukernel_mmt4d_type_f32f32f32 : Int := 1

/-- Modelled from the spec: the `i8i8i32` value of the element-type
enumeration. -/
def iree_ukernel_mmt4d_type_i8i8i32 : Int := 2

/-- Embedding of the operation descriptor `iree_ukernel_mmt4d_params_t`
(declared in `mmt4d.h`; field list as described by the spec's data model).
Buffers are byte addresses, strides are in elements, `flags` is the
`uint32_t` bitset. -/
structure iree_ukernel_mmt4d_params_t where
  type : Int
  flags : Nat
  lhs_buffer : Int
  rhs_buffer : Int
  out_buffer : Int
  lhs_stride : Int
  rhs_stride : Int
  out_stride : Int
  M : Int
  N : Int
  K : Int
  M0 : Int
  N0 : Int
  K0 : Int
deriving DecidableEq

/-- Embedding of the macro
`OUTSIDE_UINT_RANGE(value, bits) (((value) < 0) || ((value) >> (bits)))`:
true iff `value` is negative or its arithmetic right shift by `bits` is
nonzero, i.e. iff `value` lies outside `[0, 2^bits)`. -/
def OUTSIDE_UINT_RANGE (value : Int) (bits : Nat) : Bool :=
  decide (value < 0) || (value >>> bits != 0)

/-- Embedding of `iree_ukernel_mmt4d_validate`.  The flag test is
`params->flags & ~IREE_VMVX_MATMUL_FLAG_ACCUMULATE`, with the complement
taken at `uint32_t` width, hence the mask `0xFFFFFFFE`.  The `switch` on
`params->type` with two supported cases and a `default: return bad_type`
is rendered as the second branch.  The dimension test repeats
`OUTSIDE_UINT_RANGE(params->M, 31)` twice and never tests `params->N`,
exactly as the source does. -/
def iree_ukernel_mmt4d_validate (p : iree_ukernel_mmt4d_params_t) : Int :=
  if p.flags &&& 0xFFFFFFFE != 0 then
    iree_ukernel_mmt4d_status_bad_flags
  else if !(p.type == iree_ukernel_mmt4d_type_f32f32f32 ||
            p.type == iree_ukernel_mmt4d_type_i8i8i32) then
    iree_ukernel_mmt4d_status_bad_type
  else if OUTSIDE_UINT_RANGE p.M 31 || OUTSIDE_UINT_RANGE p.M 31 ||
          OUTSIDE_UINT_RANGE p.K 31 || OUTSIDE_UINT_RANGE p.M0 15 ||
          OUTSIDE_UINT_RANGE p.N0 15 || OUTSIDE_UINT_RANGE p.K0 15 then
    iree_ukernel_mmt4d_status_unsupported_huge_or_negative_dimension
  else
    iree_ukernel_mmt4d_status_ok

/-- Embedding of `iree_ukernel_mmt4d_status_message`: the `switch` over the
status with four message cases and `default: return "unknown"`.  The
source has no case for `ok`, so `ok` falls through to the default. -/
def iree_ukernel_mmt4d_status_message (status : Int) : String :=
  if status == iree_ukernel_mmt4d_status_bad_flags then
    "bad mmt4d flags"
  else if status == iree_ukernel_mmt4d_status_bad_type then
    "bad mmt4d type enum"
  else if status == iree_ukernel_mmt4d_status_unsupported_huge_or_negative_dimension then
    "unsupported huge or negative size in mmt4d"
  else if status == iree_ukernel_mmt4d_status_unsupported_generic_tile_size then
    "tile size too large for the generic tile implementation"
  else
    "unknown"

/-- `OUTSIDE_UINT_RANGE value bits` is false exactly on `[0, 2^bits)`. -/
theorem OUTSIDE_UINT_RANGE_eq_false_iff (v : Int) (b : Nat) :
    OUTSIDE_UINT_RANGE v b = false ↔ (0 ≤ v ∧ v < 2 ^ b) := by
  simp only [OUTSIDE_UINT_RANGE, Int.shiftRight_eq_div_pow, Bool.or_eq_false_iff,
    decide_eq_false_iff_not, not_lt, bne_eq_false_iff_eq]
  constructor
  · rintro ⟨h1, h2⟩
    refine ⟨h1, ?_⟩
    by_contra h
    push_neg at h
    have hpos : (0 : Int) < (2 ^ b : Nat) := by positivity
    have hge : (1 : Int) ≤ v / (2 ^ b : Nat) :=
      (Int.le_ediv_iff_mul_le hpos).mpr (by simpa using h)
    omega
  · rintro ⟨h1, h2⟩
    refine ⟨h1, Int.ediv_eq_zero_of_lt h1 ?_⟩
    exact_mod_cast h2

/-- A descriptor used to exhibit the missing `N` range check: every field
is in range except `N = -1`. -/
def mmt4d_params_negative_N : iree_ukernel_mmt4d_params_t :=
  { type := iree_ukernel_mmt4d_type_f32f32f32, flags := 0,
    lhs_buffer := 0, rhs_buffer := 0, out_buffer := 0,
    lhs_stride := 0, rhs_stride := 0, out_stride := 0,
    M := 1, N := -1, K := 1, M0 := 1, N0 := 1, K0 := 1 }

/-- C1: the claim requires a descriptor with negative `N` (all other fields
in range) to be rejected with `unsupported_huge_or_negative_dimension`, but
`iree_ukernel_mmt4d_validate` accepts it: the source tests
`OUTSIDE_UINT_RANGE(params->M, 31)` twice and never tests `params->N`. -/
theorem C1_validate_accepts_negative_N :
    iree_ukernel_mmt4d_validate mmt4d_params_negative_N =
      iree_ukernel_mmt4d_status_ok ∧
    mmt4d_params_negative_N.N < 0 ∧
    iree_ukernel_mmt4d_status_ok ≠
      iree_ukernel_mmt4d_status_unsupported_huge_or_negative_dimension := by
  refine ⟨by decide, by decide, by decide⟩

/-- C7: `iree_ukernel_mmt4d_status_message` is total on integer status
values: it returns the four exact diagnostic strings for the four error
statuses, a fixed non-empty string for `ok`, and the literal `"unknown"`
for every integer that is none of the five defined statuses. -/
theorem C7_status_message_total :
    iree_ukernel_mmt4d_status_message iree_ukernel_mmt4d_status_bad_flags =
      "bad mmt4d flags" ∧
    iree_ukernel_mmt4d_status_message iree_ukernel_mmt4d_status_bad_type =
      "bad mmt4d type enum" ∧
    iree_ukernel_mmt4d_status_message
        iree_ukernel_mmt4d_status_unsupported_huge_or_negative_dimension =
      "unsupported huge or negative size in mmt4d" ∧
    iree_ukernel_mmt4d_status_message
        iree_ukernel_mmt4d_status_unsupported_generic_tile_size =
      "tile size too large for the generic tile implementation" ∧
    iree_ukernel_mmt4d_status_message iree_ukernel_mmt4d_status_ok ≠ "" ∧
    (∀ s : Int, s ≠ iree_ukernel_mmt4d_status_ok →
      s ≠ iree_ukernel_mmt4d_status_bad_flags →
      s ≠ iree_ukernel_mmt4d_status_bad_type →
      s ≠ iree_ukernel_mmt4d_status_unsupported_huge_or_negative_dimension →
      s ≠ iree_ukernel_mmt4d_status_unsupported_generic_tile_size →
      iree_ukernel_mmt4d_status_message s = "unknown") := by
  refine ⟨by decide, by decide, by decide, by decide, by decide, ?_⟩
  intro s _ h1 h2 h3 h4
  simp only [iree_ukernel_mmt4d_status_message, beq_iff_eq,
    if_neg h1, if_neg h2, if_neg h3, if_neg h4]

/-- Closed instantiation of `C7_status_message_total` at the undefined
status value 42. -/
theorem C7_status_message_total_witness :
    iree_ukernel_mmt4d_status_message 42 = "unknown" :=
  C7_status_message_total.2.2.2.2.2 42 (by decide) (by decide) (by decide)
    (by decide) (by decide)

/-- C9: validation precedence: an undefined flag bit yields `bad_flags`
regardless of the other fields; with valid flags an unsupported type
yields `bad_type` regardless of the dimensions; and the dimension error
occurs only when both flags and type are valid. -/
theorem C9_validate_precedence (p : iree_ukernel_mmt4d_params_t) :
    (p.flags &&& 0xFFFFFFFE ≠ 0 →
      iree_ukernel_mmt4d_validate p = iree_ukernel_mmt4d_status_bad_flags) ∧
    (p.flags &&& 0xFFFFFFFE = 0 →
      ¬(p.type = iree_ukernel_mmt4d_type_f32f32f32 ∨
        p.type = iree_ukernel_mmt4d_type_i8i8i32) →
      iree_ukernel_mmt4d_validate p = iree_ukernel_mmt4d_status_bad_type) ∧
    (iree_ukernel_mmt4d_validate p =
        iree_ukernel_mmt4d_status_unsupported_huge_or_negative_dimension →
      p.flags &&& 0xFFFFFFFE = 0 ∧
      (p.type = iree_ukernel_mmt4d_type_f32f32f32 ∨
       p.type = iree_ukernel_mmt4d_type_i8i8i32)) := by
  refine ⟨?_, ?_, ?_⟩
  · intro h
    simp [iree_ukernel_mmt4d_validate, h]
  · intro h ht
    simp only [not_or] at ht
    simp [iree_ukernel_mmt4d_validate, h, ht.1, ht.2]
  · intro h
    by_cases hf : p.flags &&& 0xFFFFFFFE = 0
    · by_cases ht : p.type = iree_ukernel_mmt4d_type_f32f32f32 ∨
          p.type = iree_ukernel_mmt4d_type_i8i8i32
      · exact ⟨hf, ht⟩
      · simp only [not_or] at ht
        simp [iree_ukernel_mmt4d_validate, hf, ht.1, ht.2,
          iree_ukernel_mmt4d_status_bad_type,
          iree_ukernel_mmt4d_status_unsupported_huge_or_negative_dimension] at h
    · simp [iree_ukernel_mmt4d_validate, hf,
        iree_ukernel_mmt4d_status_bad_flags,
        iree_ukernel_mmt4d_status_unsupported_huge_or_negative_dimension] at h

/-- Closed instantiation of `C9_validate_precedence`: a descriptor with an
undefined flag bit, an unsupported type and out-of-range dimensions is
rejected with `bad_flags`. -/
theorem C9_validate_precedence_witness :
    iree_ukernel_mmt4d_validate
      { type := 0, flags := 4, lhs_buffer := 0, rhs_buffer := 0,
        out_buffer := 0, lhs_stride := 0, rhs_stride := 0, out_stride := 0,
        M := -1, N := -1, K := -1, M0 := -1, N0 := -1, K0 := -1 } =
      iree_ukernel_mmt4d_status_bad_flags :=
  (C9_validate_precedence _).1 (by decide)

/-- C10: the result of `iree_ukernel_mmt4d_validate` depends only on
`flags`, `type`, `M`, `N`, `K`, `M0`, `N0`, `K0`: two descriptors agreeing
on those fields receive the same status, whatever their strides and buffer
addresses. -/
theorem C10_validate_ignores_strides_and_buffers
    (p q : iree_ukernel_mmt4d_params_t)
    (hflags : p.flags = q.flags) (htype : p.type = q.type)
    (hM : p.M = q.M) (hN : p.N = q.N) (hK : p.K = q.K)
    (hM0 : p.M0 = q.M0) (hN0 : p.N0 = q.N0) (hK0 : p.K0 = q.K0) :
    iree_ukernel_mmt4d_validate p = iree_ukernel_mmt4d_validate q := by
  unfold iree_ukernel_mmt4d_validate
  rw [hflags, htype, hM, hK, hM0, hN0, hK0]

/-- Closed instantiation of `C10_validate_ignores_strides_and_buffers` on
two descriptors that differ in every stride and buffer field, one of them
with a negative stride. -/
theorem C10_validate_ignores_strides_and_buffers_witness :
    iree_ukernel_mmt4d_validate
      { type := 1, flags := 1, lhs_buffer := 11, rhs_buffer := 22,
        out_buffer := 33, lhs_stride := -999, rhs_stride := 2 ^ 40,
        out_stride := -5, M := 3, N := 4, K := 5, M0 := 6, N0 := 7,
        K0 := 8 } =
    iree_ukernel_mmt4d_validate
      { type := 1, flags := 1, lhs_buffer := 0, rhs_buffer := 0,
        out_buffer := 0, lhs_stride := 0, rhs_stride := 0, out_stride := 0,
        M := 3, N := 4, K := 5, M0 := 6, N0 := 7, K0 := 8 } :=
  C10_validate_ignores_strides_and_buffers _ _ rfl rfl rfl rfl rfl rfl rfl rfl

/-- Modelled from the spec: the log2 of the left-operand element byte size
for each supported type tuple (f32f32f32: 4-byte f32, log2 2; i8i8i32:
1-byte i8, log2 0).  `iree_ukernel_mmt4d_lhs_elem_size_log2` is declared in
`mmt4d.h`, which is not under `src/`; 0 is returned for unknown types. -/
def iree_ukernel_mmt4d_lhs_elem_size_log2 (t : Int) : Nat :=
  if t == iree_ukernel_mmt4d_type_f32f32f32 then 2
  else if t == iree_ukernel_mmt4d_type_i8i8i32 then 0
  else 0

/-- Modelled from the spec: the log2 of the right-operand element byte size
(f32f32f32: 2; i8i8i32: 0), as for the left operand. -/
def iree_ukernel_mmt4d_rhs_elem_size_log2 (t : Int) : Nat :=
  if t == iree_ukernel_mmt4d_type_f32f32f32 then 2
  else if t == iree_ukernel_mmt4d_type_i8i8i32 then 0
  else 0

/-- Modelled from the spec: the log2 of the output element byte size
(f32f32f32: 4-byte f32, log2 2; i8i8i32: 4-byte i32, log2 2). -/
def iree_ukernel_mmt4d_out_elem_size_log2 (t : Int) : Nat :=
  if t == iree_ukernel_mmt4d_type_f32f32f32 then 2
  else if t == iree_ukernel_mmt4d_type_i8i8i32 then 2
  else 0

/-- The left-operand element byte size, `2 ^ lhs_elem_size_log2`.  The C
code multiplies by it through a left shift by the log2. -/
def iree_ukernel_mmt4d_lhs_elem_size (t : Int) : Int :=
  2 ^ iree_ukernel_mmt4d_lhs_elem_size_log2 t

/-- The right-operand element byte size, `2 ^ rhs_elem_size_log2`. -/
def iree_ukernel_mmt4d_rhs_elem_size (t : Int) : Int :=
  2 ^ iree_ukernel_mmt4d_rhs_elem_size_log2 t

/-- The output element byte size, `2 ^ out_elem_size_log2`. -/
def iree_ukernel_mmt4d_out_elem_size (t : Int) : Int :=
  2 ^ iree_ukernel_mmt4d_out_elem_size_log2 t

/-- One invocation of the tile function by the loop-nest driver: the three
buffer pointers (byte addresses), the reduction length `K` and the flags
passed to `tile_func(out_tile, lhs_panel, rhs_panel, K, params->flags,
params)`. -/
structure TileCall where
  out_tile : Int
  lhs_panel : Int
  rhs_panel : Int
  K : Int
  flags : Nat
deriving DecidableEq

/-- The `int32_t out_tile_size = (M0 * N0) << out_elem_size_log2`
intermediate of `iree_ukernel_mmt4d_using_tile_func`, at mathematical
precision (`x << s` is `x * 2 ^ s`).  Whether this value fits a signed
32-bit intermediate is the subject of claim C4. -/
def iree_ukernel_mmt4d_out_tile_size (p : iree_ukernel_mmt4d_params_t) : Int :=
  (p.M0 * p.N0) * iree_ukernel_mmt4d_out_elem_size p.type

/-- Two's-complement narrowing of a mathematical integer to `int32_t`, as
C narrowing conversions and wrapped `int` arithmetic behave on mainstream
targets: the value is reduced modulo `2^32` into `[-2^31, 2^31)`. -/
def int32_of (x : Int) : Int := (x + 2 ^ 31) % 2 ^ 32 - 2 ^ 31

/-- Two's-complement narrowing of a mathematical integer to `int16_t`:
the value is reduced modulo `2^16` into `[-2^15, 2^15)`. -/
def int16_of (x : Int) : Int := (x + 2 ^ 15) % 2 ^ 16 - 2 ^ 15

/-- `int32_of` is the identity on `[-2^31, 2^31)`. -/
theorem int32_of_eq_self (x : Int) (h1 : -2 ^ 31 ≤ x) (h2 : x < 2 ^ 31) :
    int32_of x = x := by
  unfold int32_of
  omega

/-- `int16_of` is the identity on `[-2^15, 2^15)`. -/
theorem int16_of_eq_self (x : Int) (h1 : -2 ^ 15 ≤ x) (h2 : x < 2 ^ 15) :
    int16_of x = x := by
  unfold int16_of
  omega

/-- `int32_of` fixes zero. -/
theorem int32_of_zero : int32_of 0 = 0 := by decide

/-- The inner `for (j = 0; j < N; ++j)` loop of
`iree_ukernel_mmt4d_using_tile_func`: `n` remaining iterations, the
running `out_tile` and `rhs_panel` pointers advancing additively by
`out_tile_size` and `rhs_panel_stride`, the `lhs_panel` pointer fixed. -/
def mmt4d_inner_loop (lhs_panel out_tile_size rhs_panel_stride K : Int)
    (flags : Nat) : Nat → Int → Int → List TileCall
  | 0, _, _ => []
  | n + 1, out_tile, rhs_panel =>
      { out_tile := out_tile, lhs_panel := lhs_panel, rhs_panel := rhs_panel,
        K := K, flags := flags } ::
        mmt4d_inner_loop lhs_panel out_tile_size rhs_panel_stride K flags n
          (out_tile + out_tile_size) (rhs_panel + rhs_panel_stride)

/-- The outer `for (i = 0; i < M; ++i)` loop of
`iree_ukernel_mmt4d_using_tile_func`: `m` remaining iterations, the
running `out_tile_row` and `lhs_panel` pointers advancing additively by
`out_stride` and `lhs_panel_stride`; each iteration runs the inner loop
for `n_count` iterations with `rhs_panel` reset to `rhs_buffer`. -/
def mmt4d_outer_loop (rhs_buffer out_tile_size lhs_panel_stride
    rhs_panel_stride out_stride K : Int) (flags : Nat) (n_count : Nat) :
    Nat → Int → Int → List TileCall
  | 0, _, _ => []
  | m + 1, out_tile_row, lhs_panel =>
      mmt4d_inner_loop lhs_panel out_tile_size rhs_panel_stride K flags
          n_count out_tile_row rhs_buffer ++
        mmt4d_outer_loop rhs_buffer out_tile_size lhs_panel_stride
          rhs_panel_stride out_stride K flags n_count m
          (out_tile_row + out_stride) (lhs_panel + lhs_panel_stride)

/-- Embedding of `iree_ukernel_mmt4d_using_tile_func` as the trace of tile
function invocations it performs, in order.  The function's local copies
`const int32_t M, N, K` and `const int16_t M0, N0` and its
`int32_t out_tile_size = (M0 * N0) << out_elem_size_log2` intermediate
are modelled with two's-complement narrowing (`x << s` is `x * 2 ^ s`);
the loops run `(int32_of M).toNat` and `(int32_of N).toNat` times.  The
64-bit `iree_ukernel_ssize_t` byte strides are the element strides
multiplied by the element byte size (the C code shifts by the size's
log2). -/
def iree_ukernel_mmt4d_using_tile_func (p : iree_ukernel_mmt4d_params_t) :
    List TileCall :=
  let M := int32_of p.M
  let N := int32_of p.N
  let K := int32_of p.K
  let M0 := int16_of p.M0
  let N0 := int16_of p.N0
  let out_tile_size := int32_of ((M0 * N0) *
    iree_ukernel_mmt4d_out_elem_size p.type)
  let lhs_panel_stride := p.lhs_stride * iree_ukernel_mmt4d_lhs_elem_size p.type
  let rhs_panel_stride := p.rhs_stride * iree_ukernel_mmt4d_rhs_elem_size p.type
  let out_stride := p.out_stride * iree_ukernel_mmt4d_out_elem_size p.type
  mmt4d_outer_loop p.rhs_buffer out_tile_size lhs_panel_stride
    rhs_panel_stride out_stride K p.flags N.toNat M.toNat
    p.out_buffer p.lhs_buffer

/-- The effect of a list of tile-function invocations on a memory of
abstract type `μ`: each call updates the memory through the abstract tile
function, left to right.  An empty trace leaves the memory untouched. -/
def apply_tile_calls {μ : Type} (tile_func : TileCall → μ → μ)
    (calls : List TileCall) (m : μ) : μ :=
  calls.foldl (fun mem call => tile_func call mem) m

/-- Closed form of the claimed per-tile call, written from the spec's
words for the refinement comparison with the loop nest: output tile at
`out_buffer + i*(out_stride*out_elem_size) + j*(M0*N0*out_elem_size)`,
left panel at `lhs_buffer + i*(lhs_stride*lhs_elem_size)` (depends only on
`i`), right panel at `rhs_buffer + j*(rhs_stride*rhs_elem_size)` (depends
only on `j`), with the reduction length `K` and the flags. -/
def mmt4d_tile_call_spec (p : iree_ukernel_mmt4d_params_t) (i j : Nat) :
    TileCall :=
  { out_tile := p.out_buffer +
      i * (p.out_stride * iree_ukernel_mmt4d_out_elem_size p.type) +
      j * (p.M0 * p.N0 * iree_ukernel_mmt4d_out_elem_size p.type),
    lhs_panel := p.lhs_buffer +
      i * (p.lhs_stride * iree_ukernel_mmt4d_lhs_elem_size p.type),
    rhs_panel := p.rhs_buffer +
      j * (p.rhs_stride * iree_ukernel_mmt4d_rhs_elem_size p.type),
    K := p.K, flags := p.flags }
/-- Closed form of the inner loop: iteration `j` calls the tile function at
`out_tile + j * out_tile_size` and `rhs_panel + j * rhs_panel_stride`. -/
theorem mmt4d_inner_loop_eq_map (lhs_panel out_tile_size rhs_panel_stride
    K : Int) (flags : Nat) (n : Nat) :
    ∀ out_tile rhs_panel : Int,
      mmt4d_inner_loop lhs_panel out_tile_size rhs_panel_stride K flags n
          out_tile rhs_panel =
        (List.range n).map (fun j =>
          { out_tile := out_tile + j * out_tile_size, lhs_panel := lhs_panel,
            rhs_panel := rhs_panel + j * rhs_panel_stride, K := K,
            flags := flags }) := by
  induction n with
  | zero => intro _ _; rfl
  | succ m ih =>
    intro out_tile rhs_panel
    rw [List.range_succ_eq_map, List.map_cons, List.map_map]
    simp only [mmt4d_inner_loop]
    rw [ih (out_tile + out_tile_size) (rhs_panel + rhs_panel_stride)]
    congr 1
    · simp
    · apply List.map_congr_left
      intro j _
      simp only [Function.comp_apply, TileCall.mk.injEq, eq_self_iff_true,
        and_true, true_and]
      constructor <;> (push_cast; ring)

/-- Closed form of the outer loop: iteration `i` runs the inner loop at
`out_tile_row + i * out_stride` and `lhs_panel + i * lhs_panel_stride`,
with the right panel reset to `rhs_buffer`. -/
theorem mmt4d_outer_loop_eq_flatMap (rhs_buffer out_tile_size
    lhs_panel_stride rhs_panel_stride out_stride K : Int) (flags : Nat)
    (n_count : Nat) (m : Nat) :
    ∀ out_tile_row lhs_panel : Int,
      mmt4d_outer_loop rhs_buffer out_tile_size lhs_panel_stride
          rhs_panel_stride out_stride K flags n_count m out_tile_row
          lhs_panel =
        (List.range m).flatMap (fun i =>
          (List.range n_count).map (fun j =>
            { out_tile := out_tile_row + i * out_stride + j * out_tile_size,
              lhs_panel := lhs_panel + i * lhs_panel_stride,
              rhs_panel := rhs_buffer + j * rhs_panel_stride, K := K,
              flags := flags })) := by
  induction m with
  | zero => intro _ _; rfl
  | succ m ih =>
    intro out_tile_row lhs_panel
    rw [List.range_succ_eq_map, List.flatMap_cons, List.flatMap_map]
    simp only [mmt4d_outer_loop]
    rw [ih (out_tile_row + out_stride) (lhs_panel + lhs_panel_stride)]
    congr 1
    · rw [mmt4d_inner_loop_eq_map]
      apply List.map_congr_left
      intro j _
      simp only [TileCall.mk.injEq, eq_self_iff_true, and_true, true_and]
      constructor <;> (push_cast; ring)
    · apply List.flatMap_congr
      intro i _
      apply List.map_congr_left
      intro j _
      simp only [TileCall.mk.injEq, eq_self_iff_true, and_true, true_and]
      constructor <;> (push_cast; ring)
/-- Characterization of validation success: `iree_ukernel_mmt4d_validate`
returns `ok` exactly when the flags are a subset of ACCUMULATE, the type
is one of the two supported tuples, and `M`, `K`, `M0`, `N0`, `K0` lie in
their ranges.  `N` is absent: the source never range-checks it. -/
theorem iree_ukernel_mmt4d_validate_eq_ok_iff
    (p : iree_ukernel_mmt4d_params_t) :
    iree_ukernel_mmt4d_validate p = iree_ukernel_mmt4d_status_ok ↔
      (p.flags &&& 0xFFFFFFFE = 0 ∧
       (p.type = iree_ukernel_mmt4d_type_f32f32f32 ∨
        p.type = iree_ukernel_mmt4d_type_i8i8i32) ∧
       0 ≤ p.M ∧ p.M < 2 ^ 31 ∧ 0 ≤ p.K ∧ p.K < 2 ^ 31 ∧
       0 ≤ p.M0 ∧ p.M0 < 2 ^ 15 ∧ 0 ≤ p.N0 ∧ p.N0 < 2 ^ 15 ∧
       0 ≤ p.K0 ∧ p.K0 < 2 ^ 15) := by
  unfold iree_ukernel_mmt4d_validate
  split_ifs with h1 h2 h3
  · rw [bne_iff_ne] at h1
    constructor
    · intro h; exact absurd h (by decide)
    · rintro ⟨hf, -⟩; exact absurd hf h1
  · rw [Bool.not_eq_true', Bool.or_eq_false_iff] at h2
    rw [beq_eq_false_iff_ne] at h2
    constructor
    · intro h; exact absurd h (by decide)
    · rintro ⟨-, ht, -⟩
      rcases ht with ht | ht
      · exact absurd ht h2.1
      · exact absurd ht (by simpa [beq_eq_false_iff_ne] using h2.2)
  · constructor
    · intro h; exact absurd h (by decide)
    · rintro ⟨-, -, hM0, hM1, hK0, hK1, hM00, hM01, hN00, hN01, hK00, hK01⟩
      have hM : OUTSIDE_UINT_RANGE p.M 31 = false :=
        (OUTSIDE_UINT_RANGE_eq_false_iff _ _).mpr ⟨hM0, hM1⟩
      have hK : OUTSIDE_UINT_RANGE p.K 31 = false :=
        (OUTSIDE_UINT_RANGE_eq_false_iff _ _).mpr ⟨hK0, hK1⟩
      have hM0' : OUTSIDE_UINT_RANGE p.M0 15 = false :=
        (OUTSIDE_UINT_RANGE_eq_false_iff _ _).mpr ⟨hM00, hM01⟩
      have hN0' : OUTSIDE_UINT_RANGE p.N0 15 = false :=
        (OUTSIDE_UINT_RANGE_eq_false_iff _ _).mpr ⟨hN00, hN01⟩
      have hK0' : OUTSIDE_UINT_RANGE p.K0 15 = false :=
        (OUTSIDE_UINT_RANGE_eq_false_iff _ _).mpr ⟨hK00, hK01⟩
      simp [hM, hK, hM0', hN0', hK0'] at h3
  · rw [Bool.not_eq_true, bne_eq_false_iff_eq] at h1
    rw [Bool.not_eq_true] at h2 h3
    simp only [Bool.not_eq_false', Bool.or_eq_true, beq_iff_eq] at h2
    simp only [Bool.or_eq_false_iff] at h3
    obtain ⟨⟨⟨⟨⟨hM, -⟩, hK⟩, hM0'⟩, hN0'⟩, hK0'⟩ := h3
    rw [OUTSIDE_UINT_RANGE_eq_false_iff] at hM hK hM0' hN0' hK0'
    simp only [eq_self_iff_true, true_iff]
    exact ⟨h1, h2, hM.1, hM.2, hK.1, hK.2, hM0'.1, hM0'.2, hN0'.1, hN0'.2,
      hK0'.1, hK0'.2⟩
/-- A descriptor that passes validation, with `N` in range too, on which
the loop nest's wrapped `int32_t` advancement diverges from the ideal
closed form: `M0 = N0 = 32767` with two inner iterations. -/
def mmt4d_params_wrap : iree_ukernel_mmt4d_params_t :=
  { type := iree_ukernel_mmt4d_type_f32f32f32, flags := 0,
    lhs_buffer := 0, rhs_buffer := 0, out_buffer := 0,
    lhs_stride := 0, rhs_stride := 0, out_stride := 0,
    M := 1, N := 2, K := 1, M0 := 32767, N0 := 32767, K0 := 1 }

/-- C2: refuted as stated: `mmt4d_params_wrap` passes validation (its `N`
is in range as well), yet the loop nest's trace differs from the claimed
closed form: at `(i, j) = (0, 1)` the driver's output tile pointer is
`out_buffer + int32_of (M0*N0*4) = out_buffer - 262140`, the wrapped
`int32_t out_tile_size`, not `out_buffer + j * (M0*N0*4)`. -/
theorem C2_wrapped_advancement_diverges :
    iree_ukernel_mmt4d_validate mmt4d_params_wrap =
      iree_ukernel_mmt4d_status_ok ∧
    0 ≤ mmt4d_params_wrap.N ∧ mmt4d_params_wrap.N < 2 ^ 31 ∧
    iree_ukernel_mmt4d_using_tile_func mmt4d_params_wrap ≠
      (List.range mmt4d_params_wrap.M.toNat).flatMap (fun i =>
        (List.range mmt4d_params_wrap.N.toNat).map
          (fun j => mmt4d_tile_call_spec mmt4d_params_wrap i j)) := by
  refine ⟨by decide, by decide, by decide, by decide⟩

/-- C2 amended: for every validated descriptor whose output tile byte
footprint `(M0 * N0) << out_elem_size_log2` is below `2^31`, so that the
`int32_t out_tile_size` intermediate does not overflow, and for every
tile function, the loop nest invokes the tile function exactly once per
pair `(i, j)`, `i < M`, `j < N`, in row-major order, passing `K` and the
flags, and its purely additive pointer advancement equals the closed-form
per-tile offsets of `mmt4d_tile_call_spec`.  The range of `N` is stated
as explicit hypotheses because the code's validation omits it (claim
C1). -/
theorem C2_amended_loop_nest_matches_closed_form
    (p : iree_ukernel_mmt4d_params_t)
    (hok : iree_ukernel_mmt4d_validate p = iree_ukernel_mmt4d_status_ok)
    (hN0 : 0 ≤ p.N) (hN1 : p.N < 2 ^ 31)
    (hfit : iree_ukernel_mmt4d_out_tile_size p < 2 ^ 31) :
    iree_ukernel_mmt4d_using_tile_func p =
      (List.range p.M.toNat).flatMap (fun i =>
        (List.range p.N.toNat).map (fun j => mmt4d_tile_call_spec p i j)) := by
  obtain ⟨-, -, hM0, hM1, hK0, hK1, hM00, hM01, hN00, hN01, -, -⟩ :=
    (iree_ukernel_mmt4d_validate_eq_ok_iff p).mp hok
  have helem : 0 ≤ iree_ukernel_mmt4d_out_elem_size p.type := by
    rw [iree_ukernel_mmt4d_out_elem_size]
    positivity
  have hfit' :
      (p.M0 * p.N0) * iree_ukernel_mmt4d_out_elem_size p.type < 2 ^ 31 := by
    simpa [iree_ukernel_mmt4d_out_tile_size] using hfit
  have hnn : 0 ≤ (p.M0 * p.N0) * iree_ukernel_mmt4d_out_elem_size p.type :=
    mul_nonneg (mul_nonneg hM00 hN00) helem
  have eM : int32_of p.M = p.M := int32_of_eq_self _ (by omega) hM1
  have eN : int32_of p.N = p.N := int32_of_eq_self _ (by omega) hN1
  have eK : int32_of p.K = p.K := int32_of_eq_self _ (by omega) hK1
  have eM0 : int16_of p.M0 = p.M0 := int16_of_eq_self _ (by omega) hM01
  have eN0 : int16_of p.N0 = p.N0 := int16_of_eq_self _ (by omega) hN01
  have eots : int32_of ((p.M0 * p.N0) *
      iree_ukernel_mmt4d_out_elem_size p.type) =
      (p.M0 * p.N0) * iree_ukernel_mmt4d_out_elem_size p.type :=
    int32_of_eq_self _ (by omega) hfit'
  simp only [iree_ukernel_mmt4d_using_tile_func, eM, eN, eK, eM0, eN0, eots]
  rw [mmt4d_outer_loop_eq_flatMap]
  apply List.flatMap_congr
  intro i _
  apply List.map_congr_left
  intro j _
  simp only [mmt4d_tile_call_spec, TileCall.mk.injEq]

/-- A small fully valid descriptor used to instantiate the loop-nest
theorems: a 2 x 2 tile grid of 1 x 2 output tiles. -/
def mmt4d_params_small : iree_ukernel_mmt4d_params_t :=
  { type := iree_ukernel_mmt4d_type_f32f32f32, flags := 1,
    lhs_buffer := 200, rhs_buffer := 300, out_buffer := 100,
    lhs_stride := 8, rhs_stride := 8, out_stride := 6,
    M := 2, N := 2, K := 3, M0 := 1, N0 := 2, K0 := 4 }

/-- Closed instantiation of `C2_amended_loop_nest_matches_closed_form` at
`mmt4d_params_small`, whose tile footprint is 8 bytes. -/
theorem C2_amended_loop_nest_matches_closed_form_witness :
    iree_ukernel_mmt4d_using_tile_func mmt4d_params_small =
      (List.range mmt4d_params_small.M.toNat).flatMap (fun i =>
        (List.range mmt4d_params_small.N.toNat).map
          (fun j => mmt4d_tile_call_spec mmt4d_params_small i j)) :=
  C2_amended_loop_nest_matches_closed_form mmt4d_params_small (by decide)
    (by decide) (by decide) (by decide)

/-- C8: a validated descriptor with `M = 0` or `N = 0` yields an empty
tile grid: the tile function is invoked zero times and any memory is left
untouched. -/
theorem C8_empty_grid_no_calls (p : iree_ukernel_mmt4d_params_t)
    (hok : iree_ukernel_mmt4d_validate p = iree_ukernel_mmt4d_status_ok)
    (h0 : p.M = 0 ∨ p.N = 0) :
    iree_ukernel_mmt4d_using_tile_func p = [] ∧
    ∀ (μ : Type) (tile_func : TileCall → μ → μ) (m : μ),
      apply_tile_calls tile_func (iree_ukernel_mmt4d_using_tile_func p) m =
        m := by
  have htrace : iree_ukernel_mmt4d_using_tile_func p = [] := by
    rcases h0 with h0 | h0
    · simp only [iree_ukernel_mmt4d_using_tile_func, h0, int32_of_zero,
        Int.toNat_zero]
      rfl
    · simp only [iree_ukernel_mmt4d_using_tile_func, h0, int32_of_zero,
        Int.toNat_zero]
      rw [mmt4d_outer_loop_eq_flatMap]
      simp
  refine ⟨htrace, ?_⟩
  intro μ tile_func m
  rw [htrace]
  rfl

/-- Closed instantiation of `C8_empty_grid_no_calls` at a valid descriptor
with `M = 0`. -/
theorem C8_empty_grid_no_calls_witness :
    iree_ukernel_mmt4d_using_tile_func
      { type := iree_ukernel_mmt4d_type_i8i8i32, flags := 0,
        lhs_buffer := 0, rhs_buffer := 0, out_buffer := 0,
        lhs_stride := 4, rhs_stride := 4, out_stride := 4,
        M := 0, N := 5, K := 1, M0 := 2, N0 := 2, K0 := 1 } = [] :=
  (C8_empty_grid_no_calls _ (by decide) (Or.inl (by decide))).1

/-- A descriptor that passes validation while its output-tile byte
footprint exceeds the signed 32-bit range: `M0 = N0 = 32767`. -/
def mmt4d_params_huge_tile : iree_ukernel_mmt4d_params_t :=
  { type := iree_ukernel_mmt4d_type_f32f32f32, flags := 0,
    lhs_buffer := 0, rhs_buffer := 0, out_buffer := 0,
    lhs_stride := 0, rhs_stride := 0, out_stride := 0,
    M := 1, N := 1, K := 1, M0 := 32767, N0 := 32767, K0 := 1 }

/-- C4: refuted as stated: `mmt4d_params_huge_tile` passes validation, yet
the driver's `int32_t out_tile_size = (M0 * N0) << out_elem_size_log2`
computes `32767 * 32767 * 4 = 4294705156`, which is not below `2^31`, so
the precomputed per-tile byte size does overflow a signed 32-bit
intermediate for some validated descriptors. -/
theorem C4_out_tile_size_exceeds_int32 :
    iree_ukernel_mmt4d_validate mmt4d_params_huge_tile =
      iree_ukernel_mmt4d_status_ok ∧
    iree_ukernel_mmt4d_out_tile_size mmt4d_params_huge_tile = 4294705156 ∧
    ¬(iree_ukernel_mmt4d_out_tile_size mmt4d_params_huge_tile < 2 ^ 31) := by
  refine ⟨by decide, by decide, by decide⟩

/-- C4 amended: for every descriptor that passes validation the output
tile byte footprint `(M0 * N0) << out_elem_size_log2` is non-negative and
below `2^32` (so it fits an unsigned 32-bit or any wider signed
intermediate), but not necessarily below `2^31`. -/
theorem C4_amended_out_tile_size_lt_2pow32 (p : iree_ukernel_mmt4d_params_t)
    (hok : iree_ukernel_mmt4d_validate p = iree_ukernel_mmt4d_status_ok) :
    0 ≤ iree_ukernel_mmt4d_out_tile_size p ∧
      iree_ukernel_mmt4d_out_tile_size p < 2 ^ 32 := by
  obtain ⟨-, ht, -, -, -, -, hM00, hM01, hN00, hN01, -, -⟩ :=
    (iree_ukernel_mmt4d_validate_eq_ok_iff p).mp hok
  have he : iree_ukernel_mmt4d_out_elem_size p.type = 4 := by
    rcases ht with ht | ht <;> rw [iree_ukernel_mmt4d_out_elem_size,
      iree_ukernel_mmt4d_out_elem_size_log2, ht] <;> decide
  unfold iree_ukernel_mmt4d_out_tile_size
  rw [he]
  have hprod : p.M0 * p.N0 ≤ 32767 * 32767 :=
    mul_le_mul (by omega) (by omega) hN00 (by norm_num)
  constructor
  · exact mul_nonneg (mul_nonneg hM00 hN00) (by norm_num)
  · linarith

/-- Closed instantiation of `C4_amended_out_tile_size_lt_2pow32` at
`mmt4d_params_huge_tile`, the largest possible tile footprint. -/
theorem C4_amended_out_tile_size_lt_2pow32_witness :
    0 ≤ iree_ukernel_mmt4d_out_tile_size mmt4d_params_huge_tile ∧
      iree_ukernel_mmt4d_out_tile_size mmt4d_params_huge_tile < 2 ^ 32 :=
  C4_amended_out_tile_size_lt_2pow32 mmt4d_params_huge_tile (by decide)
/-- Modelled from the spec: the result of the generic fallback provider
`iree_ukernel_mmt4d_select_tile_func_generic` (declared in
`mmt4d_select_tile_generic.h`, not under `src/`): it either produces a
tile function or refuses because the tile shape exceeds its internal
working-buffer budget, in which case the status is
`unsupported_generic_tile_size`.  Tile functions themselves are opaque
values of an arbitrary type `α`. -/
inductive iree_ukernel_mmt4d_generic_result (α : Type) where
  | ok (tile_func : α)
  | unsupported_generic_tile_size
deriving DecidableEq

/-- The status-and-tile-function pair a generic provider result stands
for: `(ok, the function)` on success, `(unsupported_generic_tile_size,
none)` on refusal. -/
def iree_ukernel_mmt4d_generic_result_pair {α : Type} :
    iree_ukernel_mmt4d_generic_result α → Int × Option α
  | .ok f => (iree_ukernel_mmt4d_status_ok, some f)
  | .unsupported_generic_tile_size =>
      (iree_ukernel_mmt4d_status_unsupported_generic_tile_size, none)

/-- Embedding of `iree_ukernel_mmt4d_select_tile_func`, parameterized by
the two external providers: `select_tile_func_arch` returns the
architecture-specific tile function or null (`none`), in which case the
generic provider's result is returned unchanged. -/
def iree_ukernel_mmt4d_select_tile_func {α : Type}
    (select_tile_func_arch :
      iree_ukernel_mmt4d_params_t → Option α)
    (select_tile_func_generic :
      iree_ukernel_mmt4d_params_t → iree_ukernel_mmt4d_generic_result α)
    (p : iree_ukernel_mmt4d_params_t) : Int × Option α :=
  match select_tile_func_arch p with
  | some arch_tile_func => (iree_ukernel_mmt4d_status_ok, some arch_tile_func)
  | none => iree_ukernel_mmt4d_generic_result_pair (select_tile_func_generic p)

/-- Embedding of the entry point `iree_ukernel_mmt4d`: validate, then
resolve a tile function, then run the loop nest; each of the two
`IREE_UKERNEL_MMT4D_RETURN_IF_ERROR` macros returns early with an empty
invocation trace.  The result is the returned status together with the
trace of tile-function invocations performed. -/
def iree_ukernel_mmt4d {α : Type}
    (select_tile_func_arch :
      iree_ukernel_mmt4d_params_t → Option α)
    (select_tile_func_generic :
      iree_ukernel_mmt4d_params_t → iree_ukernel_mmt4d_generic_result α)
    (p : iree_ukernel_mmt4d_params_t) : Int × List TileCall :=
  let v := iree_ukernel_mmt4d_validate p
  if v ≠ iree_ukernel_mmt4d_status_ok then (v, [])
  else
    let r := iree_ukernel_mmt4d_select_tile_func select_tile_func_arch
      select_tile_func_generic p
    if r.1 ≠ iree_ukernel_mmt4d_status_ok then (r.1, [])
    else (iree_ukernel_mmt4d_status_ok, iree_ukernel_mmt4d_using_tile_func p)

/-- C6: when the architecture-specific provider returns a tile function,
the resolver returns it with `ok`, and the outcome is the same whatever
the generic provider does (it is never consulted); when the
architecture-specific provider returns null, the resolver returns exactly
the generic provider's result, whose only possible failure status is
`unsupported_generic_tile_size`. -/
theorem C6_resolver_prefers_arch {α : Type}
    (arch : iree_ukernel_mmt4d_params_t → Option α)
    (generic g1 g2 :
      iree_ukernel_mmt4d_params_t → iree_ukernel_mmt4d_generic_result α)
    (p : iree_ukernel_mmt4d_params_t) :
    (∀ f, arch p = some f →
      iree_ukernel_mmt4d_select_tile_func arch generic p =
        (iree_ukernel_mmt4d_status_ok, some f)) ∧
    ((∃ f, arch p = some f) →
      iree_ukernel_mmt4d_select_tile_func arch g1 p =
        iree_ukernel_mmt4d_select_tile_func arch g2 p) ∧
    (arch p = none →
      iree_ukernel_mmt4d_select_tile_func arch generic p =
        iree_ukernel_mmt4d_generic_result_pair (generic p)) ∧
    (∀ r : iree_ukernel_mmt4d_generic_result α,
      (iree_ukernel_mmt4d_generic_result_pair r).1 =
          iree_ukernel_mmt4d_status_ok ∨
        (iree_ukernel_mmt4d_generic_result_pair r).1 =
          iree_ukernel_mmt4d_status_unsupported_generic_tile_size) := by
  refine ⟨?_, ?_, ?_, ?_⟩
  · intro f hf
    simp [iree_ukernel_mmt4d_select_tile_func, hf]
  · rintro ⟨f, hf⟩
    simp [iree_ukernel_mmt4d_select_tile_func, hf]
  · intro hnone
    simp [iree_ukernel_mmt4d_select_tile_func, hnone]
  · intro r
    cases r
    · exact Or.inl rfl
    · exact Or.inr rfl

/-- Closed instantiation of `C6_resolver_prefers_arch`: a stub
architecture-specific provider returning tile function `7` wins over a
generic provider that also claims support (with tile function `9`). -/
theorem C6_resolver_prefers_arch_witness :
    iree_ukernel_mmt4d_select_tile_func (fun _ => some 7)
      (fun _ => iree_ukernel_mmt4d_generic_result.ok 9)
      mmt4d_params_small = (iree_ukernel_mmt4d_status_ok, some 7) :=
  (C6_resolver_prefers_arch (fun _ => some 7)
    (fun _ => iree_ukernel_mmt4d_generic_result.ok 9)
    (fun _ => iree_ukernel_mmt4d_generic_result.ok 9)
    (fun _ => iree_ukernel_mmt4d_generic_result.ok 9)
    mmt4d_params_small).1 7 rfl

/-- C5: whenever the entry point returns a status other than `ok`, the
tile function was never invoked (the invocation trace is empty) and any
memory state is left untouched: all failures occur strictly before
execution begins. -/
theorem C5_failure_implies_no_execution {α : Type}
    (arch : iree_ukernel_mmt4d_params_t → Option α)
    (generic :
      iree_ukernel_mmt4d_params_t → iree_ukernel_mmt4d_generic_result α)
    (p : iree_ukernel_mmt4d_params_t)
    (hfail : (iree_ukernel_mmt4d arch generic p).1 ≠
      iree_ukernel_mmt4d_status_ok) :
    (iree_ukernel_mmt4d arch generic p).2 = [] ∧
    ∀ (μ : Type) (tile_func : TileCall → μ → μ) (m : μ),
      apply_tile_calls tile_func (iree_ukernel_mmt4d arch generic p).2 m =
        m := by
  have htrace : (iree_ukernel_mmt4d arch generic p).2 = [] := by
    simp only [iree_ukernel_mmt4d] at hfail ⊢
    split_ifs with h1 h2
    · rfl
    · rfl
    · simp only [h1, h2] at hfail
      simp at hfail
  refine ⟨htrace, ?_⟩
  intro μ tile_func m
  rw [htrace]
  rfl

/-- Closed instantiation of `C5_failure_implies_no_execution` at a
descriptor rejected for its flags. -/
theorem C5_failure_implies_no_execution_witness :
    (iree_ukernel_mmt4d (fun _ => some 7)
      (fun _ => iree_ukernel_mmt4d_generic_result.ok 9)
      { type := 1, flags := 2, lhs_buffer := 0, rhs_buffer := 0,
        out_buffer := 0, lhs_stride := 0, rhs_stride := 0, out_stride := 0,
        M := 1, N := 1, K := 1, M0 := 1, N0 := 1, K0 := 1 }).2 = [] :=
  (C5_failure_implies_no_execution (fun _ => some 7)
    (fun _ => iree_ukernel_mmt4d_generic_result.ok 9) _ (by decide)).1
/-- C3: refuted as stated: with no architecture-specific kernel available
(the arch provider returns null, as on an architecture without optimized
kernels) and a generic provider whose internal working-buffer budget the
tile shape exceeds, a descriptor satisfying every bound of the claim is
not executed: the entry point returns `unsupported_generic_tile_size`,
not `ok`. -/
theorem C3_run_can_refuse_valid_descriptor :
    iree_ukernel_mmt4d_validate mmt4d_params_small =
      iree_ukernel_mmt4d_status_ok ∧
    0 ≤ mmt4d_params_small.N ∧ mmt4d_params_small.N < 2 ^ 31 ∧
    (iree_ukernel_mmt4d (fun _ => (none : Option Nat))
        (fun _ =>
          iree_ukernel_mmt4d_generic_result.unsupported_generic_tile_size)
        mmt4d_params_small).1 =
      iree_ukernel_mmt4d_status_unsupported_generic_tile_size ∧
    iree_ukernel_mmt4d_status_unsupported_generic_tile_size ≠
      iree_ukernel_mmt4d_status_ok := by
  refine ⟨by decide, by decide, by decide, by decide, by decide⟩

/-- C3 amended: for all descriptors with `M, N, K` in `[0, 2^31)`,
`M0, N0, K0` in `[0, 2^15)`, flags a subset of ACCUMULATE and a supported
numeric type, the entry point returns either `ok` or the resolver's
capability-gap status `unsupported_generic_tile_size`; it never returns a
validation error, whatever the two external providers do. -/
theorem C3_amended_run_ok_or_generic_refusal {α : Type}
    (arch : iree_ukernel_mmt4d_params_t → Option α)
    (generic :
      iree_ukernel_mmt4d_params_t → iree_ukernel_mmt4d_generic_result α)
    (p : iree_ukernel_mmt4d_params_t)
    (hflags : p.flags &&& 0xFFFFFFFE = 0)
    (htype : p.type = iree_ukernel_mmt4d_type_f32f32f32 ∨
      p.type = iree_ukernel_mmt4d_type_i8i8i32)
    (hM : 0 ≤ p.M) (hM' : p.M < 2 ^ 31)
    (hN : 0 ≤ p.N) (hN' : p.N < 2 ^ 31)
    (hK : 0 ≤ p.K) (hK' : p.K < 2 ^ 31)
    (hM0 : 0 ≤ p.M0) (hM0' : p.M0 < 2 ^ 15)
    (hN0 : 0 ≤ p.N0) (hN0' : p.N0 < 2 ^ 15)
    (hK0 : 0 ≤ p.K0) (hK0' : p.K0 < 2 ^ 15) :
    (iree_ukernel_mmt4d arch generic p).1 = iree_ukernel_mmt4d_status_ok ∨
    (iree_ukernel_mmt4d arch generic p).1 =
      iree_ukernel_mmt4d_status_unsupported_generic_tile_size := by
  have hok : iree_ukernel_mmt4d_validate p = iree_ukernel_mmt4d_status_ok :=
    (iree_ukernel_mmt4d_validate_eq_ok_iff p).mpr
      ⟨hflags, htype, hM, hM', hK, hK', hM0, hM0', hN0, hN0', hK0, hK0'⟩
  rcases harch : arch p with _ | f
  · rcases hgen : generic p with f | _ <;>
      simp [iree_ukernel_mmt4d, iree_ukernel_mmt4d_select_tile_func, hok,
        harch, hgen, iree_ukernel_mmt4d_generic_result_pair,
        iree_ukernel_mmt4d_status_ok,
        iree_ukernel_mmt4d_status_unsupported_generic_tile_size]
  · simp [iree_ukernel_mmt4d, iree_ukernel_mmt4d_select_tile_func, hok,
      harch, iree_ukernel_mmt4d_status_ok]

/-- Closed instantiation of `C3_amended_run_ok_or_generic_refusal` with a
stub architecture-specific provider at `mmt4d_params_small`. -/
theorem C3_amended_run_ok_or_generic_refusal_witness :
    (iree_ukernel_mmt4d (fun _ => some 7)
        (fun _ => iree_ukernel_mmt4d_generic_result.ok 9)
        mmt4d_params_small).1 = iree_ukernel_mmt4d_status_ok ∨
    (iree_ukernel_mmt4d (fun _ => some 7)
        (fun _ => iree_ukernel_mmt4d_generic_result.ok 9)
        mmt4d_params_small).1 =
      iree_ukernel_mmt4d_status_unsupported_generic_tile_size :=
  C3_amended_run_ok_or_generic_refusal (fun _ => some 7)
    (fun _ => iree_ukernel_mmt4d_generic_result.ok 9) mmt4d_params_small
    (by decide) (by decide) (by decide) (by decide) (by decide) (by decide)
    (by decide) (by decide) (by decide) (by decide) (by decide) (by decide)
    (by decide) (by decide)
